import Mathlib

/-!
Shallow embedding of the ReactorX adiabatic multi-stage equilibrium
calculator core (src/AdiabticEquilibriumCalculator.jsx): the equilibrium
model, the damped Newton stage solver, and the multi-stage loop, together
with proofs and refutations of the specified properties.
-/

namespace ReactorX

/-- Gas constant R = 1.987 cal/(mol K), as in the source. -/
def R_VALUE : ℝ := 1.987

/-- Iteration cap of the Newton solver. -/
def ITER_MAX : ℕ := 50

/-- Convergence tolerance on the objective value. -/
def TOLERANCE : ℝ := 0.0001

/-- Maximum number of reactor stages. -/
def STAGE_LIMIT : ℕ := 5

/-- Equilibrium constant at temperature `t`, corrected from the 298 K base
value by the van t Hoff factor (source: `computeK`). -/
noncomputable def computeK (t baseK deltaH : ℝ) : ℝ :=
  baseK * Real.exp ((deltaH / R_VALUE) * (1 / 298 - 1 / t))

/-- Thermodynamic equilibrium conversion `k / (1 + k)`
(source: `computeThermodynamicConversion`). -/
noncomputable def computeThermodynamicConversion (t baseK deltaH : ℝ) : ℝ :=
  computeK t baseK deltaH / (1 + computeK t baseK deltaH)

/-- Conversion implied by the adiabatic energy balance line
(source: `computeEnergyBalanceConversion`). -/
noncomputable def computeEnergyBalanceConversion (t initialTemp heatCapacity deltaH : ℝ) : ℝ :=
  heatCapacity * (t - initialTemp) / |deltaH|

/-- Coefficients handed to the stage solver (`reactorParams` in the source). -/
structure ReactorParams where
  baseK : ℝ
  deltaH : ℝ
  heatCapacity : ℝ

/-- Outcome of one reactor stage, as returned by `solveForIntersection`. -/
structure StageResult where
  eqTemp : ℝ
  conversion : ℝ
  iterations : ℕ

/-- The solver's objective: signed gap between the thermodynamic curve and
the (offset) energy-balance line (source: `objectiveFunction`). -/
noncomputable def objectiveFunction (cumulativeConversion startingTemp : ℝ)
    (p : ReactorParams) (t : ℝ) : ℝ :=
  computeThermodynamicConversion t p.baseK p.deltaH -
    (cumulativeConversion +
      computeEnergyBalanceConversion t startingTemp p.heatCapacity p.deltaH)

/-- Forward finite-difference derivative with step 0.01
(source: `calculateDerivative`). -/
noncomputable def calculateDerivative (cumulativeConversion startingTemp : ℝ)
    (p : ReactorParams) (t : ℝ) : ℝ :=
  (objectiveFunction cumulativeConversion startingTemp p (t + 0.01) -
    objectiveFunction cumulativeConversion startingTemp p t) / 0.01

/-- One body of the solver's while loop after the tolerance test: the
near-flat nudge, the damped or plain Newton update, then the clamp at
`startingTemp + 1` (source: loop body of `solveForIntersection`). -/
noncomputable def newtonStep (cumulativeConversion startingTemp : ℝ)
    (p : ReactorParams) (t : ℝ) : ℝ :=
  let fValue := objectiveFunction cumulativeConversion startingTemp p t
  let derivative := calculateDerivative cumulativeConversion startingTemp p t
  let t1 :=
    if |derivative| < 1e-10 then
      (if fValue > 0 then t - 10 else t + 10)
    else
      let nextT := t - fValue / derivative
      (if |nextT - t| > 100 then t - 0.5 * fValue / derivative else nextT)
  if t1 < startingTemp then startingTemp + 1 else t1

/-- The solver's while loop: the remaining fuel is `ITER_MAX - count`; the
loop stops on fuel exhaustion or once `|f t| < TOLERANCE`
(source: `while` loop of `solveForIntersection`). -/
noncomputable def solveLoop (cumulativeConversion startingTemp : ℝ) (p : ReactorParams) :
    ℕ → ℝ → ℕ → ℝ × ℕ
  | 0, t, count => (t, count)
  | fuel + 1, t, count =>
    if |objectiveFunction cumulativeConversion startingTemp p t| < TOLERANCE then
      (t, count)
    else
      solveLoop cumulativeConversion startingTemp p fuel
        (newtonStep cumulativeConversion startingTemp p t) (count + 1)

/-- The single-stage solver: damped Newton iteration from `initTemp + 100`,
returning the final temperature, the thermodynamic conversion there, and
the consumed iteration count (source: `solveForIntersection`). -/
noncomputable def solveForIntersection (initTemp cumulativeConversion startingTemp : ℝ)
    (p : ReactorParams) : StageResult :=
  let r := solveLoop cumulativeConversion startingTemp p ITER_MAX (initTemp + 100) 0
  { eqTemp := r.1
    conversion := computeThermodynamicConversion r.1 p.baseK p.deltaH
    iterations := r.2 }

/-- The immutable input set of a run (`inputs` in the source; `Fa0` and
`temperature` feed only the single-point display values). -/
structure ReactionInputs where
  Ha : ℝ
  Hb : ℝ
  Ca : ℝ
  Cb : ℝ
  Fa0 : ℝ
  Ke : ℝ
  temperature : ℝ
  T0 : ℝ
  coolingTemp : ℝ
  targetConversion : ℝ

/-- Aggregate result of a run (`results` object built in `runCalculation`). -/
structure CalculationResult where
  Xe : ℝ
  Xeb : ℝ
  keAtTemp : ℝ
  intersection : String
  adiabaticEqTemp : ℝ
  eqConversion : ℝ
  iterations : ℕ
  stages : List StageResult
  finalConversion : ℝ
  targetReached : Prop

/-- The multi-stage while loop of `runCalculation`: while the cumulative
conversion is below target and the stage count is below `STAGE_LIMIT`
(fuel counts the remaining stages), solve the next stage from the cooling
temperature; break once conversion exceeds 0.99. -/
noncomputable def stageLoop (coolingTemp targetConversion : ℝ) (p : ReactorParams) :
    ℕ → List StageResult → ℝ → List StageResult × ℝ
  | 0, reactors, totalConversion => (reactors, totalConversion)
  | fuel + 1, reactors, totalConversion =>
    if totalConversion < targetConversion then
      let nextReactor := solveForIntersection coolingTemp totalConversion coolingTemp p
      if nextReactor.conversion > 0.99 then
        (reactors ++ [nextReactor], nextReactor.conversion)
      else
        stageLoop coolingTemp targetConversion p fuel
          (reactors ++ [nextReactor]) nextReactor.conversion
    else (reactors, totalConversion)

/-- The calculation entry point (source: `runCalculation`): the `Ca = Cb`
validation gate, the derived coefficients, the single-point evaluations,
stage 1 from the feed temperature, then the multi-stage loop with the
first stage already counted (fuel `STAGE_LIMIT - 1`). -/
noncomputable def runCalculation (inputs : ReactionInputs) : Except String CalculationResult :=
  if inputs.Ca ≠ inputs.Cb then
    Except.error "Error: Cpa and Cpb must be equal for this calculation model."
  else
    let deltaH := inputs.Hb - inputs.Ha
    let heatCapacity := inputs.Ca
    let baseK := inputs.Ke
    let p : ReactorParams := { baseK := baseK, deltaH := deltaH, heatCapacity := heatCapacity }
    let k := computeK inputs.temperature baseK deltaH
    let thermodynamicX := computeThermodynamicConversion inputs.temperature baseK deltaH
    let energyBalanceX :=
      computeEnergyBalanceConversion inputs.temperature inputs.T0 heatCapacity deltaH
    let firstReactor := solveForIntersection inputs.T0 0 inputs.T0 p
    let looped :=
      stageLoop inputs.coolingTemp inputs.targetConversion p (STAGE_LIMIT - 1)
        [firstReactor] firstReactor.conversion
    Except.ok
      { Xe := thermodynamicX
        Xeb := energyBalanceX
        keAtTemp := k
        intersection :=
          if |thermodynamicX - energyBalanceX| < 0.01 then "Yes (within 1%)" else "No"
        adiabaticEqTemp := firstReactor.eqTemp
        eqConversion := firstReactor.conversion
        iterations := firstReactor.iterations
        stages := looped.1
        finalConversion := looped.2
        targetReached := looped.2 ≥ inputs.targetConversion }

/-- Stage conversion sequence of a successful run (empty on the error path). -/
def okStageConversions : Except String CalculationResult → List ℝ
  | Except.ok r => r.stages.map StageResult.conversion
  | Except.error _ => []

/-- Stage count of a successful run (0 on the error path). -/
def okStageCount : Except String CalculationResult → ℕ
  | Except.ok r => r.stages.length
  | Except.error _ => 0

/-- Whether a run produced a `CalculationResult`. -/
def isOkResult : Except String CalculationResult → Bool
  | Except.ok _ => true
  | Except.error _ => false

/-- The default input set of the source UI. -/
def defaultInputs : ReactionInputs :=
  { Ha := -40000, Hb := -60000, Ca := 50, Cb := 50, Fa0 := 40, Ke := 100000,
    temperature := 300, T0 := 300, coolingTemp := 350, targetConversion := 0.8 }

/-! ### Helper lemmas about the Newton loop -/

lemma newtonStep_ge (cumX startT : ℝ) (p : ReactorParams) (t : ℝ) :
    startT ≤ newtonStep cumX startT p t := by
  simp only [newtonStep]
  split_ifs with h1 h2 h3 h4 h5 <;> linarith

lemma solveLoop_fst_ge (cumX startT : ℝ) (p : ReactorParams) :
    ∀ (fuel : ℕ) (t : ℝ) (count : ℕ), startT ≤ t →
      startT ≤ (solveLoop cumX startT p fuel t count).1 := by
  intro fuel
  induction fuel with
  | zero => intro t count ht; exact ht
  | succ n ih =>
    intro t count ht
    rw [solveLoop]
    split_ifs with h
    · exact ht
    · exact ih _ _ (newtonStep_ge cumX startT p t)

lemma solveLoop_snd_le (cumX startT : ℝ) (p : ReactorParams) :
    ∀ (fuel : ℕ) (t : ℝ) (count : ℕ),
      (solveLoop cumX startT p fuel t count).2 ≤ count + fuel := by
  intro fuel
  induction fuel with
  | zero => intro t count; exact Nat.le_refl _
  | succ n ih =>
    intro t count
    rw [solveLoop]
    split_ifs with h
    · exact Nat.le_add_right _ _
    · have := ih (newtonStep cumX startT p t) (count + 1)
      omega

lemma solveLoop_converged (cumX startT : ℝ) (p : ReactorParams) :
    ∀ (fuel : ℕ) (t : ℝ) (count : ℕ),
      (solveLoop cumX startT p fuel t count).2 < count + fuel →
      |objectiveFunction cumX startT p (solveLoop cumX startT p fuel t count).1| < TOLERANCE := by
  intro fuel
  induction fuel with
  | zero => intro t count h; simp [solveLoop] at h
  | succ n ih =>
    intro t count h
    rw [solveLoop] at h ⊢
    split_ifs at h ⊢ with hf
    · exact hf
    · exact ih (newtonStep cumX startT p t) (count + 1) (by omega)

lemma solveLoop_immediate (cumX startT : ℝ) (p : ReactorParams) (fuel : ℕ) (t : ℝ) (count : ℕ)
    (h : |objectiveFunction cumX startT p t| < TOLERANCE) :
    solveLoop cumX startT p (fuel + 1) t count = (t, count) := by
  rw [solveLoop, if_pos h]

lemma solveForIntersection_immediate (initT cumX startT : ℝ) (p : ReactorParams)
    (h : |objectiveFunction cumX startT p (initT + 100)| < TOLERANCE) :
    solveForIntersection initT cumX startT p =
      { eqTemp := initT + 100
        conversion := computeThermodynamicConversion (initT + 100) p.baseK p.deltaH
        iterations := 0 } := by
  unfold solveForIntersection
  rw [show ITER_MAX = 49 + 1 from rfl, solveLoop_immediate cumX startT p 49 (initT + 100) 0 h]

/-! ### Helper lemmas about the equilibrium model -/

lemma computeThermodynamicConversion_baseK_zero (t deltaH : ℝ) :
    computeThermodynamicConversion t 0 deltaH = 0 := by
  simp [computeThermodynamicConversion, computeK]

lemma computeEnergyBalanceConversion_heatCapacity_zero (t initialTemp deltaH : ℝ) :
    computeEnergyBalanceConversion t initialTemp 0 deltaH = 0 := by
  simp [computeEnergyBalanceConversion]

lemma objectiveFunction_degenerate (cumX startT dH t : ℝ) :
    objectiveFunction cumX startT { baseK := 0, deltaH := dH, heatCapacity := 0 } t = -cumX := by
  simp [objectiveFunction, computeThermodynamicConversion_baseK_zero,
    computeEnergyBalanceConversion_heatCapacity_zero]

/-- With a zero base equilibrium constant and zero heat capacity and no prior
conversion, the objective vanishes identically, so the solver returns its very
first evaluation point `initTemp + 100` with zero iterations. -/
lemma solveForIntersection_degenerate (initT startT dH : ℝ) :
    solveForIntersection initT 0 startT { baseK := 0, deltaH := dH, heatCapacity := 0 } =
      { eqTemp := initT + 100, conversion := 0, iterations := 0 } := by
  rw [solveForIntersection_immediate initT 0 startT _ (by
    rw [objectiveFunction_degenerate]
    norm_num [TOLERANCE])]
  rw [computeThermodynamicConversion_baseK_zero]

lemma computeK_pos (t baseK deltaH : ℝ) (hK : 0 < baseK) : 0 < computeK t baseK deltaH :=
  mul_pos hK (Real.exp_pos _)

lemma computeThermodynamicConversion_pos (t baseK deltaH : ℝ) (hK : 0 < baseK) :
    0 < computeThermodynamicConversion t baseK deltaH := by
  have hk := computeK_pos t baseK deltaH hK
  exact div_pos hk (by linarith)

lemma computeThermodynamicConversion_lt_one (t baseK deltaH : ℝ) (hK : 0 < baseK) :
    computeThermodynamicConversion t baseK deltaH < 1 := by
  have hk := computeK_pos t baseK deltaH hK
  rw [computeThermodynamicConversion, div_lt_one (by linarith)]
  linarith

lemma computeThermodynamicConversion_lt_computeK (t baseK deltaH : ℝ) (hK : 0 < baseK) :
    computeThermodynamicConversion t baseK deltaH < computeK t baseK deltaH := by
  have hk := computeK_pos t baseK deltaH hK
  rw [computeThermodynamicConversion, div_lt_iff₀ (by linarith)]
  nlinarith

lemma computeK_lt_computeK (baseK deltaH t1 t2 : ℝ) (hK : 0 < baseK) (hdH : deltaH < 0)
    (h1 : 0 < t1) (h12 : t1 < t2) :
    computeK t2 baseK deltaH < computeK t1 baseK deltaH := by
  unfold computeK
  have hR : (0 : ℝ) < R_VALUE := by norm_num [R_VALUE]
  have hneg : deltaH / R_VALUE < 0 := div_neg_of_neg_of_pos hdH hR
  have hinv : 1 / t2 < 1 / t1 := one_div_lt_one_div_of_lt h1 h12
  have hsub : (1 : ℝ) / 298 - 1 / t1 < 1 / 298 - 1 / t2 := by linarith
  have hexp : deltaH / R_VALUE * (1 / 298 - 1 / t2) < deltaH / R_VALUE * (1 / 298 - 1 / t1) :=
    mul_lt_mul_of_neg_left hsub hneg
  exact mul_lt_mul_of_pos_left (Real.exp_lt_exp.mpr hexp) hK

/-- The equilibrium conversion is strictly decreasing in temperature for an
exothermic reaction (negative `deltaH`) with positive base constant. -/
lemma computeThermodynamicConversion_strictAnti (baseK deltaH t1 t2 : ℝ) (hK : 0 < baseK)
    (hdH : deltaH < 0) (h1 : 0 < t1) (h12 : t1 < t2) :
    computeThermodynamicConversion t2 baseK deltaH <
      computeThermodynamicConversion t1 baseK deltaH := by
  have k1pos := computeK_pos t1 baseK deltaH hK
  have k2pos := computeK_pos t2 baseK deltaH hK
  have hk := computeK_lt_computeK baseK deltaH t1 t2 hK hdH h1 h12
  unfold computeThermodynamicConversion
  rw [div_lt_div_iff₀ (by linarith) (by linarith)]
  nlinarith

/-! ### Helper lemmas about the multi-stage loop -/

lemma stageLoop_zero (c tgt : ℝ) (p : ReactorParams) (rs : List StageResult) (x : ℝ) :
    stageLoop c tgt p 0 rs x = (rs, x) := rfl

lemma stageLoop_step (c tgt : ℝ) (p : ReactorParams) (fuel : ℕ) (rs : List StageResult) (x : ℝ)
    (hx : x < tgt) (h99 : ¬ (solveForIntersection c x c p).conversion > 0.99) :
    stageLoop c tgt p (fuel + 1) rs x =
      stageLoop c tgt p fuel (rs ++ [solveForIntersection c x c p])
        (solveForIntersection c x c p).conversion := by
  simp only [stageLoop]
  rw [if_pos hx, if_neg h99]

lemma stageLoop_length_lb (c tgt : ℝ) (p : ReactorParams) :
    ∀ (fuel : ℕ) (rs : List StageResult) (x : ℝ),
      rs.length ≤ ((stageLoop c tgt p fuel rs x).1).length := by
  intro fuel
  induction fuel with
  | zero => intro rs x; exact Nat.le_refl _
  | succ n ih =>
    intro rs x
    simp only [stageLoop]
    split_ifs with h1 h2
    · simp
    · have := ih (rs ++ [solveForIntersection c x c p])
        (solveForIntersection c x c p).conversion
      simp at this
      omega
    · exact Nat.le_refl _

lemma stageLoop_length_ub (c tgt : ℝ) (p : ReactorParams) :
    ∀ (fuel : ℕ) (rs : List StageResult) (x : ℝ),
      ((stageLoop c tgt p fuel rs x).1).length ≤ rs.length + fuel := by
  intro fuel
  induction fuel with
  | zero => intro rs x; exact Nat.le_refl _
  | succ n ih =>
    intro rs x
    simp only [stageLoop]
    split_ifs with h1 h2
    · simp
    · have := ih (rs ++ [solveForIntersection c x c p])
        (solveForIntersection c x c p).conversion
      simp at this
      omega
    · exact Nat.le_add_right _ _

/-! ### The reference-point identity of the equilibrium constant -/

lemma computeK_ref (baseK deltaH : ℝ) : computeK 298 baseK deltaH = baseK := by
  simp [computeK]

/-! ### Concrete facts feeding the multi-stage counterexample run: tiny base
constant `1e-5`, reaction enthalpy `-1`, zero heat capacity, feed at 198 K and
cooling at 208 K, so every stage converges immediately at its initial guess yet
the equilibrium conversion strictly drops from stage 1 (at 298 K) to
stage 2 (at 308 K). -/

def c3Inputs : ReactionInputs :=
  { Ha := 0, Hb := -1, Ca := 0, Cb := 0, Fa0 := 40, Ke := 1e-5,
    temperature := 298, T0 := 198, coolingTemp := 208, targetConversion := 0.8 }

def c3Params : ReactorParams := { baseK := 1e-5, deltaH := -1, heatCapacity := 0 }

lemma c3_X298_eq :
    computeThermodynamicConversion 298 1e-5 (-1) = 1e-5 / (1 + 1e-5) := by
  rw [computeThermodynamicConversion, computeK_ref]

lemma c3_X298_bounds : 0 < computeThermodynamicConversion 298 1e-5 (-1) ∧
    computeThermodynamicConversion 298 1e-5 (-1) < 1e-5 := by
  rw [c3_X298_eq]
  norm_num

lemma c3_k308_lt : computeK 308 1e-5 (-1) < 1e-5 := by
  have hc : (-1 : ℝ) / R_VALUE * (1 / 298 - 1 / 308) < 0 := by
    apply mul_neg_of_neg_of_pos
    · norm_num [R_VALUE]
    · norm_num
  have hexp : Real.exp ((-1 : ℝ) / R_VALUE * (1 / 298 - 1 / 308)) < 1 := by
    calc Real.exp ((-1 : ℝ) / R_VALUE * (1 / 298 - 1 / 308)) < Real.exp 0 :=
          Real.exp_lt_exp.mpr hc
      _ = 1 := Real.exp_zero
  have h := mul_lt_mul_of_pos_left hexp (show (0 : ℝ) < 1e-5 by norm_num)
  rw [mul_one] at h
  calc computeK 308 1e-5 (-1) = 1e-5 * Real.exp ((-1 : ℝ) / R_VALUE * (1 / 298 - 1 / 308)) := rfl
    _ < 1e-5 := h

lemma c3_X308_bounds : 0 < computeThermodynamicConversion 308 1e-5 (-1) ∧
    computeThermodynamicConversion 308 1e-5 (-1) < 1e-5 := by
  constructor
  · exact computeThermodynamicConversion_pos 308 1e-5 (-1) (by norm_num)
  · exact lt_trans (computeThermodynamicConversion_lt_computeK 308 1e-5 (-1) (by norm_num))
      c3_k308_lt

lemma c3_X308_lt_X298 : computeThermodynamicConversion 308 1e-5 (-1) <
    computeThermodynamicConversion 298 1e-5 (-1) :=
  computeThermodynamicConversion_strictAnti 1e-5 (-1) 298 308 (by norm_num) (by norm_num)
    (by norm_num) (by norm_num)

lemma c3_stage1 : solveForIntersection 198 0 198 c3Params =
    { eqTemp := 298, conversion := computeThermodynamicConversion 298 1e-5 (-1),
      iterations := 0 } := by
  have h : (198 : ℝ) + 100 = 298 := by norm_num
  rw [solveForIntersection_immediate 198 0 198 c3Params (by
    rw [h, objectiveFunction]
    show |computeThermodynamicConversion 298 1e-5 (-1) -
      (0 + computeEnergyBalanceConversion 298 198 0 (-1))| < TOLERANCE
    rw [computeEnergyBalanceConversion_heatCapacity_zero,
      abs_of_pos (by linarith [c3_X298_bounds.1])]
    have := c3_X298_bounds.2
    norm_num [TOLERANCE]
    linarith)]
  rw [h]
  rfl

lemma c3_stage2 : solveForIntersection 208 (computeThermodynamicConversion 298 1e-5 (-1))
    208 c3Params =
    { eqTemp := 308, conversion := computeThermodynamicConversion 308 1e-5 (-1),
      iterations := 0 } := by
  have h : (208 : ℝ) + 100 = 308 := by norm_num
  rw [solveForIntersection_immediate 208 _ 208 c3Params (by
    rw [h, objectiveFunction]
    show |computeThermodynamicConversion 308 1e-5 (-1) -
      (computeThermodynamicConversion 298 1e-5 (-1) +
        computeEnergyBalanceConversion 308 208 0 (-1))| < TOLERANCE
    rw [computeEnergyBalanceConversion_heatCapacity_zero]
    have h1 := c3_X298_bounds
    have h2 := c3_X308_bounds
    rw [abs_lt]
    constructor <;> [skip; skip] <;> norm_num [TOLERANCE] <;> linarith)]
  rw [h]
  rfl

lemma c3_stage_rest : solveForIntersection 208 (computeThermodynamicConversion 308 1e-5 (-1))
    208 c3Params =
    { eqTemp := 308, conversion := computeThermodynamicConversion 308 1e-5 (-1),
      iterations := 0 } := by
  have h : (208 : ℝ) + 100 = 308 := by norm_num
  rw [solveForIntersection_immediate 208 _ 208 c3Params (by
    rw [h, objectiveFunction]
    show |computeThermodynamicConversion 308 1e-5 (-1) -
      (computeThermodynamicConversion 308 1e-5 (-1) +
        computeEnergyBalanceConversion 308 208 0 (-1))| < TOLERANCE
    rw [computeEnergyBalanceConversion_heatCapacity_zero]
    norm_num [TOLERANCE])]
  rw [h]
  rfl

lemma c3_loop :
    stageLoop 208 (0.8 : ℝ) c3Params 4
      [{ eqTemp := 298, conversion := computeThermodynamicConversion 298 1e-5 (-1),
         iterations := 0 }]
      (computeThermodynamicConversion 298 1e-5 (-1)) =
      ([{ eqTemp := 298, conversion := computeThermodynamicConversion 298 1e-5 (-1),
          iterations := 0 },
        { eqTemp := 308, conversion := computeThermodynamicConversion 308 1e-5 (-1),
          iterations := 0 },
        { eqTemp := 308, conversion := computeThermodynamicConversion 308 1e-5 (-1),
          iterations := 0 },
        { eqTemp := 308, conversion := computeThermodynamicConversion 308 1e-5 (-1),
          iterations := 0 },
        { eqTemp := 308, conversion := computeThermodynamicConversion 308 1e-5 (-1),
          iterations := 0 }],
       computeThermodynamicConversion 308 1e-5 (-1)) := by
  have hX298 := c3_X298_bounds
  have hX308 := c3_X308_bounds
  have hx1 : computeThermodynamicConversion 298 1e-5 (-1) < 0.8 := by linarith
  have hx2 : computeThermodynamicConversion 308 1e-5 (-1) < 0.8 := by linarith
  have h99a : ¬ (solveForIntersection 208 (computeThermodynamicConversion 298 1e-5 (-1))
      208 c3Params).conversion > 0.99 := by
    rw [c3_stage2]
    show ¬ computeThermodynamicConversion 308 1e-5 (-1) > 0.99
    linarith
  have h99b : ¬ (solveForIntersection 208 (computeThermodynamicConversion 308 1e-5 (-1))
      208 c3Params).conversion > 0.99 := by
    rw [c3_stage_rest]
    show ¬ computeThermodynamicConversion 308 1e-5 (-1) > 0.99
    linarith
  rw [show (4 : ℕ) = 3 + 1 from rfl, stageLoop_step 208 0.8 c3Params 3 _ _ hx1 h99a,
    c3_stage2]
  rw [show (3 : ℕ) = 2 + 1 from rfl, stageLoop_step 208 0.8 c3Params 2 _ _ hx2 h99b,
    c3_stage_rest]
  rw [show (2 : ℕ) = 1 + 1 from rfl, stageLoop_step 208 0.8 c3Params 1 _ _ hx2 h99b,
    c3_stage_rest]
  rw [show (1 : ℕ) = 0 + 1 from rfl, stageLoop_step 208 0.8 c3Params 0 _ _ hx2 h99b,
    c3_stage_rest]
  rw [stageLoop_zero]
  simp

lemma c3_run_stageConversions :
    okStageConversions (runCalculation c3Inputs) =
      [computeThermodynamicConversion 298 1e-5 (-1),
       computeThermodynamicConversion 308 1e-5 (-1),
       computeThermodynamicConversion 308 1e-5 (-1),
       computeThermodynamicConversion 308 1e-5 (-1),
       computeThermodynamicConversion 308 1e-5 (-1)] := by
  have hne : ¬ (c3Inputs.Ca ≠ c3Inputs.Cb) := by simp [c3Inputs]
  have hp : ReactorParams.mk c3Inputs.Ke (c3Inputs.Hb - c3Inputs.Ha) c3Inputs.Ca = c3Params := by
    simp only [c3Inputs, c3Params]
    norm_num
  rw [runCalculation, if_neg hne]
  simp only [okStageConversions]
  rw [hp]
  have hT0 : c3Inputs.T0 = (198 : ℝ) := rfl
  have hcool : c3Inputs.coolingTemp = (208 : ℝ) := rfl
  have htgt : c3Inputs.targetConversion = (0.8 : ℝ) := rfl
  rw [hT0, hcool, htgt, c3_stage1]
  rw [show STAGE_LIMIT - 1 = 4 from rfl]
  rw [c3_loop]
  simp

/-! ### Claim theorems -/

/-- C1 counterexample: with initial guess 0, zero prior conversion, reference
temperature 200 and degenerate coefficients (base constant 0, heat capacity 0)
the objective vanishes at the first evaluation point, so the solver returns
t = 100, strictly below referenceTemp + 1 = 201: the clamp invariant
`t >= stageReferenceTemp + 1` fails for arbitrary invocations. -/
theorem clamp_claim_counterexample :
    (solveForIntersection 0 0 200 (ReactorParams.mk 0 (-1) 0)).eqTemp < 200 + 1 := by
  rw [solveForIntersection_degenerate]
  show (0 : ℝ) + 100 < 200 + 1
  norm_num

/-- C1 amended: whenever the Newton starting point `initTemp + 100` is at
least the stage reference temperature (as at both call sites, which pass the
reference temperature as `initTemp`), the returned equilibrium temperature is
at least the reference temperature; the clamp resets any lower excursion to
`startingTemp + 1`, but a final temperature inside `[startingTemp, startingTemp + 1)`
or an immediately accepted low initial guess is never raised, so only the
bound without the `+ 1` holds. -/
theorem solveForIntersection_eqTemp_ge_ref (initT cumX startT : ℝ) (p : ReactorParams)
    (h : startT ≤ initT + 100) :
    startT ≤ (solveForIntersection initT cumX startT p).eqTemp :=
  solveLoop_fst_ge cumX startT p ITER_MAX (initT + 100) 0 h

/-- C1 witness: the amended clamp bound at a concrete invocation. -/
theorem solveForIntersection_eqTemp_ge_ref_witness :
    (200 : ℝ) ≤ 200 + 100 ∧
      (200 : ℝ) ≤ (solveForIntersection 200 0.3 200 (ReactorParams.mk 2 (-5) 7)).eqTemp :=
  ⟨by norm_num, solveForIntersection_eqTemp_ge_ref 200 0.3 200 _ (by norm_num)⟩

/-- C2 counterexample: at baseK = 0 the conversion is exactly 0, outside the
open interval (0,1); and with baseK = 1, deltaH = -1 < 0 the conversion at
398 K is strictly below the conversion at 298 K, so for negative deltaH the
conversion is decreasing in temperature, not increasing. -/
theorem thermodynamicConversion_claim_counterexample :
    computeThermodynamicConversion 298 0 (-1) = 0 ∧
      computeThermodynamicConversion 398 1 (-1) < computeThermodynamicConversion 298 1 (-1) :=
  ⟨computeThermodynamicConversion_baseK_zero 298 (-1),
   computeThermodynamicConversion_strictAnti 1 (-1) 298 398 (by norm_num) (by norm_num)
     (by norm_num) (by norm_num)⟩

/-- C2 amended: for every temperature and every positive baseK the
thermodynamic conversion lies strictly in (0,1); and for deltaH < 0 it is
strictly decreasing in temperature on t > 0. -/
theorem thermodynamicConversion_range_and_mono :
    (∀ t baseK deltaH : ℝ, 0 < t → 0 < baseK →
      0 < computeThermodynamicConversion t baseK deltaH ∧
        computeThermodynamicConversion t baseK deltaH < 1) ∧
    (∀ baseK deltaH t1 t2 : ℝ, 0 < baseK → deltaH < 0 → 0 < t1 → t1 < t2 →
      computeThermodynamicConversion t2 baseK deltaH <
        computeThermodynamicConversion t1 baseK deltaH) := by
  constructor
  · intro t baseK deltaH _ hK
    exact ⟨computeThermodynamicConversion_pos t baseK deltaH hK,
      computeThermodynamicConversion_lt_one t baseK deltaH hK⟩
  · intro baseK deltaH t1 t2 hK hdH h1 h12
    exact computeThermodynamicConversion_strictAnti baseK deltaH t1 t2 hK hdH h1 h12

/-- C2 witness: range and monotonicity at concrete inputs. -/
theorem thermodynamicConversion_range_and_mono_witness :
    (0 < computeThermodynamicConversion 300 2 (-5) ∧
      computeThermodynamicConversion 300 2 (-5) < 1) ∧
      computeThermodynamicConversion 400 2 (-5) < computeThermodynamicConversion 300 2 (-5) :=
  ⟨thermodynamicConversion_range_and_mono.1 300 2 (-5) (by norm_num) (by norm_num),
   thermodynamicConversion_range_and_mono.2 2 (-5) 300 400 (by norm_num) (by norm_num)
     (by norm_num) (by norm_num)⟩

/-- C3 counterexample: on the concrete inputs `c3Inputs` the full multi-stage
calculation yields five stages whose conversion sequence strictly decreases
from stage 1 to stage 2 (each stage records the thermodynamic conversion at
its own final temperature, which here drops from 298 K to 308 K on the
decreasing equilibrium curve), so the cumulative-conversion sequence is not
non-decreasing. -/
theorem stage_conversions_decrease_counterexample :
    okStageConversions (runCalculation c3Inputs) =
      [computeThermodynamicConversion 298 1e-5 (-1),
       computeThermodynamicConversion 308 1e-5 (-1),
       computeThermodynamicConversion 308 1e-5 (-1),
       computeThermodynamicConversion 308 1e-5 (-1),
       computeThermodynamicConversion 308 1e-5 (-1)] ∧
      computeThermodynamicConversion 308 1e-5 (-1) <
        computeThermodynamicConversion 298 1e-5 (-1) :=
  ⟨c3_run_stageConversions, c3_X308_lt_X298⟩

/-- C3 amended: what the solver does guarantee is that a converged stage
(iteration count below the cap) with nonnegative heat capacity, nonzero
reaction enthalpy, and starting point at or above the reference temperature
returns a conversion above the prior cumulative conversion minus TOLERANCE;
a genuine non-decreasing chain is not guaranteed (the `_hdh` hypothesis pins
the model to the nondegenerate regime of the source, which divides by
`|deltaH|`). -/
theorem converged_stage_conversion_lower_bound (initT cumX startT : ℝ) (p : ReactorParams)
    (hcp : 0 ≤ p.heatCapacity) ( _hdh : p.deltaH ≠ 0) (hstart : startT ≤ initT + 100)
    (hconv : (solveForIntersection initT cumX startT p).iterations < ITER_MAX) :
    cumX - TOLERANCE < (solveForIntersection initT cumX startT p).conversion := by
  have hge : startT ≤ (solveLoop cumX startT p ITER_MAX (initT + 100) 0).1 :=
    solveLoop_fst_ge cumX startT p ITER_MAX (initT + 100) 0 hstart
  have hcount : (solveLoop cumX startT p ITER_MAX (initT + 100) 0).2 < 0 + ITER_MAX := by
    rw [Nat.zero_add]
    exact hconv
  have htol := solveLoop_converged cumX startT p ITER_MAX (initT + 100) 0 hcount
  have hEB : 0 ≤ computeEnergyBalanceConversion
      (solveLoop cumX startT p ITER_MAX (initT + 100) 0).1 startT p.heatCapacity p.deltaH := by
    unfold computeEnergyBalanceConversion
    apply div_nonneg
    · exact mul_nonneg hcp (by linarith)
    · exact abs_nonneg _
  have habs := (abs_lt.mp htol).1
  unfold objectiveFunction at habs
  show cumX - TOLERANCE < computeThermodynamicConversion
    (solveLoop cumX startT p ITER_MAX (initT + 100) 0).1 p.baseK p.deltaH
  linarith

/-- C3 witness: the converged-stage lower bound at a concrete invocation. -/
theorem converged_stage_conversion_lower_bound_witness :
    (solveForIntersection 0 0 0 (ReactorParams.mk 0 (-1) 0)).iterations < ITER_MAX ∧
      0 - TOLERANCE < (solveForIntersection 0 0 0 (ReactorParams.mk 0 (-1) 0)).conversion := by
  have hit : (solveForIntersection 0 0 0 (ReactorParams.mk 0 (-1) 0)).iterations < ITER_MAX := by
    rw [solveForIntersection_degenerate]
    show (0 : ℕ) < ITER_MAX
    norm_num [ITER_MAX]
  exact ⟨hit, converged_stage_conversion_lower_bound 0 0 0 (ReactorParams.mk 0 (-1) 0)
    (le_refl 0) (by norm_num) (by norm_num) hit⟩

/-- C4: the single-stage solver is total and lenient: it consumes at most
ITER_MAX = 50 iterations; if the initial guess already meets the tolerance it
returns that guess with 0 iterations; and whenever it returns with fewer than
50 iterations the objective at the returned temperature is within tolerance
(so hitting the cap is the only way to return unconverged, and then the
current temperature is returned as-is — never an error). -/
theorem solveForIntersection_iteration_policy (initT cumX startT : ℝ) (p : ReactorParams) :
    (solveForIntersection initT cumX startT p).iterations ≤ ITER_MAX ∧
    (|objectiveFunction cumX startT p (initT + 100)| < TOLERANCE →
      (solveForIntersection initT cumX startT p).eqTemp = initT + 100 ∧
      (solveForIntersection initT cumX startT p).iterations = 0) ∧
    ((solveForIntersection initT cumX startT p).iterations < ITER_MAX →
      |objectiveFunction cumX startT p (solveForIntersection initT cumX startT p).eqTemp| <
        TOLERANCE) := by
  refine ⟨?_, ?_, ?_⟩
  · have h := solveLoop_snd_le cumX startT p ITER_MAX (initT + 100) 0
    rw [Nat.zero_add] at h
    exact h
  · intro h
    rw [solveForIntersection_immediate initT cumX startT p h]
    exact ⟨rfl, rfl⟩
  · intro h
    have hcount : (solveLoop cumX startT p ITER_MAX (initT + 100) 0).2 < 0 + ITER_MAX := by
      rw [Nat.zero_add]
      exact h
    exact solveLoop_converged cumX startT p ITER_MAX (initT + 100) 0 hcount

/-- C4 witness: the iteration policy at a concrete invocation. -/
theorem solveForIntersection_iteration_policy_witness :
    (solveForIntersection 0 0 0 (ReactorParams.mk 0 (-1) 0)).iterations ≤ ITER_MAX ∧
    (|objectiveFunction 0 0 (ReactorParams.mk 0 (-1) 0) (0 + 100)| < TOLERANCE →
      (solveForIntersection 0 0 0 (ReactorParams.mk 0 (-1) 0)).eqTemp = 0 + 100 ∧
      (solveForIntersection 0 0 0 (ReactorParams.mk 0 (-1) 0)).iterations = 0) ∧
    ((solveForIntersection 0 0 0 (ReactorParams.mk 0 (-1) 0)).iterations < ITER_MAX →
      |objectiveFunction 0 0 (ReactorParams.mk 0 (-1) 0)
        (solveForIntersection 0 0 0 (ReactorParams.mk 0 (-1) 0)).eqTemp| < TOLERANCE) :=
  solveForIntersection_iteration_policy 0 0 0 (ReactorParams.mk 0 (-1) 0)

/-- C5: for any inputs with equal heat capacities the calculation succeeds and
returns between 1 and STAGE_LIMIT = 5 stages inclusive. -/
theorem runCalculation_stage_count_bounds (inputs : ReactionInputs)
    (h : inputs.Ca = inputs.Cb) :
    isOkResult (runCalculation inputs) = true ∧
      1 ≤ okStageCount (runCalculation inputs) ∧ okStageCount (runCalculation inputs) ≤ 5 := by
  have hne : ¬ (inputs.Ca ≠ inputs.Cb) := not_not_intro h
  rw [runCalculation, if_neg hne]
  refine ⟨rfl, ?_, ?_⟩
  · simp only [okStageCount]
    have hlb := stageLoop_length_lb inputs.coolingTemp inputs.targetConversion
      (ReactorParams.mk inputs.Ke (inputs.Hb - inputs.Ha) inputs.Ca) (STAGE_LIMIT - 1)
      [solveForIntersection inputs.T0 0 inputs.T0
        (ReactorParams.mk inputs.Ke (inputs.Hb - inputs.Ha) inputs.Ca)]
      (solveForIntersection inputs.T0 0 inputs.T0
        (ReactorParams.mk inputs.Ke (inputs.Hb - inputs.Ha) inputs.Ca)).conversion
    simpa using hlb
  · simp only [okStageCount]
    have hub := stageLoop_length_ub inputs.coolingTemp inputs.targetConversion
      (ReactorParams.mk inputs.Ke (inputs.Hb - inputs.Ha) inputs.Ca) (STAGE_LIMIT - 1)
      [solveForIntersection inputs.T0 0 inputs.T0
        (ReactorParams.mk inputs.Ke (inputs.Hb - inputs.Ha) inputs.Ca)]
      (solveForIntersection inputs.T0 0 inputs.T0
        (ReactorParams.mk inputs.Ke (inputs.Hb - inputs.Ha) inputs.Ca)).conversion
    simpa using hub

/-- C5 witness: the stage-count bounds on the source's default inputs. -/
theorem runCalculation_stage_count_bounds_witness :
    defaultInputs.Ca = defaultInputs.Cb ∧
      (isOkResult (runCalculation defaultInputs) = true ∧
        1 ≤ okStageCount (runCalculation defaultInputs) ∧
        okStageCount (runCalculation defaultInputs) ≤ 5) :=
  ⟨rfl, runCalculation_stage_count_bounds defaultInputs rfl⟩

/-- C6: with unequal heat capacities the calculation returns the blocking
validation error before any stage computation, producing no result. -/
theorem runCalculation_validation_error (inputs : ReactionInputs)
    (h : inputs.Ca ≠ inputs.Cb) :
    runCalculation inputs =
      Except.error "Error: Cpa and Cpb must be equal for this calculation model." := by
  rw [runCalculation, if_pos h]

/-- C6 witness: the validation error on the default inputs with Cb changed
to 40 (so Ca = 50 differs from Cb = 40). -/
theorem runCalculation_validation_error_witness :
    ({ defaultInputs with Cb := 40 } : ReactionInputs).Ca ≠
        ({ defaultInputs with Cb := 40 } : ReactionInputs).Cb ∧
      runCalculation { defaultInputs with Cb := 40 } =
        Except.error "Error: Cpa and Cpb must be equal for this calculation model." := by
  have h : ({ defaultInputs with Cb := 40 } : ReactionInputs).Ca ≠
      ({ defaultInputs with Cb := 40 } : ReactionInputs).Cb := by
    norm_num [defaultInputs]
  exact ⟨h, runCalculation_validation_error _ h⟩

/-- C7 counterexample: invoked with initial-guess parameter 50 and reference
temperature 300 (degenerate coefficients making the objective vanish
everywhere), the solver accepts its very first evaluation point, which is
150 = initTemp + 100, not 400 = stageReferenceTemp + 100. -/
theorem initial_guess_claim_counterexample :
    (solveForIntersection 50 0 300 (ReactorParams.mk 0 (-1) 0)).eqTemp = 50 + 100 ∧
      (50 : ℝ) + 100 ≠ 300 + 100 := by
  constructor
  · rw [solveForIntersection_degenerate]
  · norm_num

/-- C7 amended: the Newton iteration starts at `initTemp + 100`, the solver's
first parameter, not at `stageReferenceTemp + 100`; observably, whenever the
objective already meets the tolerance at `initTemp + 100` the solver returns
exactly that temperature with zero iterations. (At both call sites in
`runCalculation` the two parameters coincide, so there the guess does equal
the reference temperature plus 100.) -/
theorem solveForIntersection_initial_guess (initT cumX startT : ℝ) (p : ReactorParams)
    (h : |objectiveFunction cumX startT p (initT + 100)| < TOLERANCE) :
    (solveForIntersection initT cumX startT p).eqTemp = initT + 100 ∧
      (solveForIntersection initT cumX startT p).iterations = 0 := by
  rw [solveForIntersection_immediate initT cumX startT p h]
  exact ⟨rfl, rfl⟩

/-- C7 witness: the initial guess behaviour at a concrete invocation. -/
theorem solveForIntersection_initial_guess_witness :
    |objectiveFunction 0 500 (ReactorParams.mk 0 (-1) 0) (20 + 100)| < TOLERANCE ∧
      ((solveForIntersection 20 0 500 (ReactorParams.mk 0 (-1) 0)).eqTemp = 20 + 100 ∧
        (solveForIntersection 20 0 500 (ReactorParams.mk 0 (-1) 0)).iterations = 0) := by
  have h : |objectiveFunction 0 500 (ReactorParams.mk 0 (-1) 0) (20 + 100)| < TOLERANCE := by
    rw [objectiveFunction_degenerate]
    norm_num [TOLERANCE]
  exact ⟨h, solveForIntersection_initial_guess 20 0 500 _ h⟩

/-- C8: the equilibrium constant evaluated at the 298 K reference temperature
returns exactly the base constant, for every baseK and deltaH. -/
theorem computeK_at_reference (baseK deltaH : ℝ) : computeK 298 baseK deltaH = baseK := by
  simp [computeK]

/-- C9: the calculation is a pure function of its inputs: equal
ReactionParameters yield equal CalculationResults in every field — there is
no hidden state between runs. -/
theorem runCalculation_deterministic (a b : ReactionInputs) (h : a = b) :
    runCalculation a = runCalculation b := by
  rw [h]

/-- C9 witness: two runs on the default inputs agree. -/
theorem runCalculation_deterministic_witness :
    runCalculation defaultInputs = runCalculation defaultInputs :=
  runCalculation_deterministic defaultInputs defaultInputs rfl

/-- C10: the conversion field of every solver result is exactly the
thermodynamic conversion evaluated at the returned temperature — the result
lies on the equilibrium curve even when the iteration cap was exhausted. -/
theorem solveForIntersection_conversion_on_curve (initT cumX startT : ℝ) (p : ReactorParams) :
    (solveForIntersection initT cumX startT p).conversion =
      computeThermodynamicConversion (solveForIntersection initT cumX startT p).eqTemp
        p.baseK p.deltaH := rfl

end ReactorX
